import Mathlib

/-!
Shallow embedding of the label-verification comparison engine
(`comparison.server.ts` and `types.ts`): normalizers, the alcohol-content
parser, the per-field comparators, the government-warning compliance
checker and the aggregator `compareFields`, together with theorems
settling the specification claims about them.

Strings are modelled as Lean `String` (lists of characters); JavaScript
regex whitespace `\s` is modelled by the ASCII whitespace characters;
`toLowerCase` is modelled by ASCII lowercasing; JavaScript numbers are
modelled by `ℚ` (every numeral the parser accepts is an exact decimal).
-/

set_option autoImplicit false
set_option maxRecDepth 4000

namespace LabelVerify

attribute [local semireducible] Rat.mul Rat.inv Rat.add Rat.sub Rat.ofScientific

/-- Characters matched by the regex class `\s` (ASCII fragment). -/
def wsChar (c : Char) : Bool :=
  c == ' ' || c == '\t' || c == '\n' || c == '\r' || c == '\x0b' || c == '\x0c'

/-- `String.prototype.trim`: drop leading and trailing whitespace. -/
def trimList (cs : List Char) : List Char :=
  ((cs.dropWhile wsChar).reverse.dropWhile wsChar).reverse

def jsTrim (s : String) : String := ⟨trimList s.data⟩

/-- ASCII model of `String.prototype.toLowerCase`. -/
def lowerStr (s : String) : String := ⟨s.data.map Char.toLower⟩

/-- `replace(/\s+/g, " ")`: collapse every whitespace run to one space.
The flag records whether the previous character belonged to a run. -/
def collapseAux : Bool → List Char → List Char
  | _, [] => []
  | prevWs, c :: cs =>
    if wsChar c then
      if prevWs then collapseAux true cs else ' ' :: collapseAux true cs
    else c :: collapseAux false cs

def collapseWs (s : String) : String := ⟨collapseAux false s.data⟩

/-- `normalize` from the source: trim, lowercase, collapse whitespace. -/
def normalize (s : String) : String := collapseWs (lowerStr (jsTrim s))

/-- `s.trim().replace(/\s+/g, " ")` — whitespace normalization that
preserves case (used for the government warning). -/
def wsNormalize (s : String) : String := collapseWs (jsTrim s)

/-- `String.prototype.split(sep)` for a single-character separator:
empty segments are kept, and splitting the empty string gives `[""]`. -/
def splitChar (sep : Char) : List Char → List (List Char)
  | [] => [[]]
  | c :: cs =>
    match splitChar sep cs with
    | [] => [[]]
    | w :: ws => if c == sep then [] :: w :: ws else (c :: w) :: ws

def splitSp (s : String) : List String := (splitChar ' ' s.data).map (fun l => ⟨l⟩)

/-- Does `hay` start with `needle` (character-exact)? -/
def startsList : List Char → List Char → Bool
  | [], _ => true
  | _ :: _, [] => false
  | n :: ns, h :: hs => n == h && startsList ns hs

/-- Does `needle` occur inside `hay`? -/
def occursList (needle : List Char) : List Char → Bool
  | [] => needle.isEmpty
  | c :: rest => startsList needle (c :: rest) || occursList needle rest

/-- `String.prototype.includes`. -/
def includes (s sub : String) : Bool := occursList sub.data s.data

/-- Case-insensitive literal matcher: `lit` is given in lowercase; on
success returns the rest of the input after the literal. -/
def matchLit : List Char → List Char → Option (List Char)
  | [], cs => some cs
  | _ :: _, [] => none
  | l :: ls, c :: cs => if c.toLower == l then matchLit ls cs else none

def dropWsL (cs : List Char) : List Char := cs.dropWhile wsChar

/-- Numeric value of a digit string. -/
def digitsVal (ds : List Char) : ℕ :=
  ds.foldl (fun n c => 10 * n + (c.toNat - 48)) 0

/-- Maximal-munch parse of `\d+(?:\.\d+)?` with `parseFloat` semantics,
returning the (exact decimal) value and the rest of the input. -/
def parseDec (cs : List Char) : Option (ℚ × List Char) :=
  let ds := cs.takeWhile (fun c => c.isDigit)
  let rest := cs.drop ds.length
  if ds.isEmpty then none
  else
    let ipart : ℚ := (digitsVal ds : ℚ)
    match rest with
    | '.' :: r2 =>
      let fs := r2.takeWhile (fun c => c.isDigit)
      if fs.isEmpty then some (ipart, rest)
      else some (ipart + (digitsVal fs : ℚ) / ((10 : ℚ) ^ fs.length), r2.drop fs.length)
    | _ => some (ipart, rest)

/-- `normalizeNetContents`: after `normalize`, insert a space at every
digit-immediately-followed-by-lowercase-letter boundary
(`replace(/(\d)([a-z])/g, "$1 $2")`). -/
def digitLetterSpace : List Char → List Char
  | [] => []
  | [c] => [c]
  | c1 :: c2 :: rest =>
    if c1.isDigit && ('a' ≤ c2 && c2 ≤ 'z') then
      c1 :: ' ' :: digitLetterSpace (c2 :: rest)
    else
      c1 :: digitLetterSpace (c2 :: rest)

def normalizeNetContents (s : String) : String := ⟨digitLetterSpace (normalize s).data⟩

/-! ## Data model (`types.ts`) -/

inductive NoteLevel where
  | info
  | caution
deriving DecidableEq, Repr

structure NormalizationNote where
  text : String
  level : NoteLevel
deriving DecidableEq, Repr

structure ParsedAlcoholContent where
  rawText : String
  abv : Option ℚ
  proof : Option ℚ
  inferredFromBareNumber : Bool
  notes : List NormalizationNote
deriving DecidableEq, Repr

inductive FieldStatus where
  | match_
  | warning
  | mismatch
  | not_found
deriving DecidableEq, Repr

structure NormalizationInfo where
  expectedParsed : Option ParsedAlcoholContent
  extractedParsed : Option ParsedAlcoholContent
  numericDiff : Option ℚ
  diffUnit : Option String
deriving DecidableEq, Repr

structure FieldResult where
  name : String
  key : String
  extracted : Option String
  expected : String
  status : FieldStatus
  explanation : String
  normalization : Option NormalizationInfo
deriving DecidableEq, Repr

structure GovernmentWarningCheck where
  textMatch : Bool
  allCapsCorrect : Option Bool
  boldCorrect : Option Bool
  extractedText : Option String
  issues : List String
deriving DecidableEq, Repr

inductive ImageQuality where
  | good
  | fair
  | poor
deriving DecidableEq, Repr

/-- `ApplicationData`: the expected record; an empty string means
"not provided" (the `beverageType` enum-or-empty is carried as its
string value). -/
structure ApplicationData where
  brandName : String
  classType : String
  alcoholContent : String
  netContents : String
  producerName : String
  producerAddress : String
  countryOfOrigin : String
  governmentWarning : String
  beverageType : String
deriving DecidableEq, Repr

/-- `ExtractedLabel`: the extracted record; `none` means the field was
not detected. -/
structure ExtractedLabel where
  brandName : Option String
  classType : Option String
  alcoholContent : Option String
  netContents : Option String
  producerName : Option String
  producerAddress : Option String
  countryOfOrigin : Option String
  governmentWarning : Option String
  governmentWarningAllCaps : Option Bool
  governmentWarningBold : Option Bool
  beverageType : Option String
  isAlcoholLabel : Bool
  imageQuality : ImageQuality
  confidence : ℚ
  notes : List String
deriving DecidableEq, Repr

inductive OverallStatus where
  | approved
  | needs_review
  | rejected
deriving DecidableEq, Repr

structure VerificationResult where
  overallStatus : OverallStatus
  isAlcoholLabel : Bool
  fields : List FieldResult
  governmentWarningCheck : Option GovernmentWarningCheck
  imageQuality : ImageQuality
  confidence : ℚ
  notes : List String
  processingTimeMs : ℚ
deriving DecidableEq, Repr

/-- JavaScript falsiness of a `string | null` value: `null` or `""`. -/
def blankOpt : Option String → Bool
  | none => true
  | some s => s == ""

/-! ## Government-warning compliance checker -/

/-- Modelled from the spec: the "fixed legal standard string" of §4.4
against which the compliance checker compares the extracted warning.
Its defining module (`constants`) is not among the provided sources;
the text is the TTB warning shown verbatim in the application form of
the repository. -/
def STANDARD_GOV_WARNING : String :=
  "GOVERNMENT WARNING: (1) According to the Surgeon General, women should not drink alcoholic beverages during pregnancy because of the risk of birth defects. (2) Consumption of alcoholic beverages impairs your ability to drive a car or operate machinery, and may cause health problems."

/-- The issue string produced when `boldCorrect === false` — the one
issue worded as a manual-verification advisory. -/
def boldAdvisoryIssue : String :=
  "\"GOVERNMENT WARNING:\" should appear in bold type per 27 CFR § 16.22 (verify manually — bold detection from images may be imprecise)"

def checkGovernmentWarningCompliance (extracted : ExtractedLabel) : GovernmentWarningCheck :=
  if blankOpt extracted.governmentWarning then
    { textMatch := false
      allCapsCorrect := none
      boldCorrect := none
      extractedText := none
      issues := ["Government warning not found on label"] }
  else
    let gw := extracted.governmentWarning.getD ""
    let normExtracted := wsNormalize gw
    let normStandard := wsNormalize STANDARD_GOV_WARNING
    let textMatch := lowerStr normExtracted == lowerStr normStandard
    let issues1 :=
      if !textMatch then
        ["Warning text does not match the required TTB standard text"]
      else if normExtracted ≠ normStandard then
        ["Warning text matches but has case differences — \"GOVERNMENT WARNING\" prefix must be in ALL CAPS"]
      else []
    let allCapsCorrect := extracted.governmentWarningAllCaps
    let issues2 := issues1 ++
      (if allCapsCorrect = some false then
        ["\"GOVERNMENT WARNING:\" must appear in ALL CAPS per 27 CFR § 16.22"]
      else [])
    let boldCorrect := extracted.governmentWarningBold
    let issues3 := issues2 ++ (if boldCorrect = some false then [boldAdvisoryIssue] else [])
    { textMatch := textMatch
      allCapsCorrect := allCapsCorrect
      boldCorrect := boldCorrect
      extractedText := extracted.governmentWarning
      issues := issues3 }

/-! ## Alcohol-content parser

Each regex of `parseAlcoholContent` is modelled by a matcher that runs
at one start position plus the leftmost-match driver `searchAt`.  The
matchers use maximal-munch number parsing, which agrees with the
backtracking regex engine here: shortening a matched number leaves a
digit or a dot as the next character, and every continuation of the
patterns requires whitespace, `%`, `p`, or `(` at that point. -/

/-- Leftmost-match driver: try the matcher at every start position. -/
def searchAt {α : Type} (m : List Char → Option α) : List Char → Option α
  | [] => m []
  | c :: cs =>
    match m (c :: cs) with
    | some r => some r
    | none => searchAt m cs

/-- Matcher for the combined pattern
`/(\d+(?:\.\d+)?)\s*%\s*(?:alc(?:\.?\s*(?:\/\s*|by\s+)?vol(?:ume)?\.?)?)?[^(]*\((\d+(?:\.\d+)?)\s*proof\)/i`
at one position.  Between the `%` and the proof parenthesis the regex
matches any run of non-`(` characters (the optional qualifier group
consumes only non-`(` characters and `[^(]*` absorbs the rest), so it
reduces to skipping to the first `(`. -/
def combinedAt (cs : List Char) : Option (ℚ × ℚ) :=
  match parseDec cs with
  | none => none
  | some (a, r1) =>
    match dropWsL r1 with
    | '%' :: r2 =>
      match r2.dropWhile (fun c => c != '(') with
      | '(' :: r3 =>
        match parseDec r3 with
        | none => none
        | some (p, r4) =>
          match matchLit "proof".data (dropWsL r4) with
          | some (')' :: _) => some (a, p)
          | _ => none
      | _ => none
    | _ => none

/-- Matcher for `/(\d+(?:\.\d+)?)\s*proof/i` at one position. -/
def proofAt (cs : List Char) : Option ℚ :=
  match parseDec cs with
  | none => none
  | some (p, r1) =>
    match matchLit "proof".data (dropWsL r1) with
    | some _ => some p
    | none => none

/-- Matcher for
`/(\d+(?:\.\d+)?)\s*(?:%|percent)\s*(?:alc(?:ohol)?(?:\.?\s*(?:\/\s*|by\s+)?vol(?:ume)?\.?)?|abv)?/i`
at one position; only the first capture matters and the trailing
qualifier group is optional, so the match succeeds exactly when the
number is followed by optional whitespace and `%` or `percent`. -/
def percentAt (cs : List Char) : Option ℚ :=
  match parseDec cs with
  | none => none
  | some (a, r1) =>
    match dropWsL r1 with
    | '%' :: _ => some a
    | r2 =>
      match matchLit "percent".data r2 with
      | some _ => some a
      | none => none

/-- Matcher for the anchored bare-number pattern `/^(\d+(?:\.\d+)?)$/`. -/
def bareParse (cs : List Char) : Option ℚ :=
  match parseDec cs with
  | some (a, []) => some a
  | _ => none

def parseAlcoholContent (value : String) : ParsedAlcoholContent :=
  let trimmed := jsTrim value
  let cs := trimmed.data
  match searchAt combinedAt cs with
  | some (a, p) =>
    let expectedProof := a * 2
    let notes :=
      if |p - expectedProof| > 1/10 then
        [⟨"Proof (" ++ toString p ++ ") doesn\x27t match expected 2×ABV (" ++ toString expectedProof ++ ")", NoteLevel.caution⟩]
      else []
    { rawText := trimmed, abv := some a, proof := some p
      inferredFromBareNumber := false, notes := notes }
  | none =>
  match searchAt proofAt cs with
  | some p =>
    let abv := p / 2
    { rawText := trimmed, abv := some abv, proof := some p
      inferredFromBareNumber := false
      notes := [⟨"Converted " ++ toString p ++ " Proof to " ++ toString abv ++ "% ABV (US standard: proof = 2 × ABV)", NoteLevel.info⟩] }
  | none =>
  match searchAt percentAt cs with
  | some a =>
    { rawText := trimmed, abv := some a, proof := none
      inferredFromBareNumber := false, notes := [] }
  | none =>
  match bareParse cs with
  | some a =>
    { rawText := trimmed, abv := some a, proof := none
      inferredFromBareNumber := true
      notes := [⟨"Interpreted \x27" ++ trimmed ++ "\x27 as " ++ toString a ++ "% ABV (no unit specified)", NoteLevel.caution⟩] }
  | none =>
    { rawText := trimmed, abv := none, proof := none
      inferredFromBareNumber := false, notes := [] }

/-! ## Field comparators -/

def compareBrandName (expected : String) (extracted : Option String) : FieldResult :=
  let base : FieldResult :=
    { name := "Brand Name", key := "brandName", extracted := extracted
      expected := expected, status := .match_, explanation := "", normalization := none }
  if blankOpt extracted then
    { base with status := .not_found, explanation := "Brand name not found on label" }
  else
    let ex := extracted.getD ""
    let trimExpected := wsNormalize expected
    let trimExtracted := wsNormalize ex
    let normExpected := normalize expected
    let normExtracted := normalize ex
    if trimExpected == trimExtracted then
      { base with status := .match_, explanation := "Brand name matches" }
    else if normExpected == normExtracted then
      { base with status := .warning, explanation := "Brand name matches but has case differences" }
    else if includes normExtracted normExpected || includes normExpected normExtracted then
      { base with status := .warning, explanation := "Partial match — one contains the other" }
    else
      { base with status := .mismatch
                  explanation := "Expected \"" ++ expected ++ "\", found \"" ++ ex ++ "\"" }

def compareBeverageType (expected : String) (extracted : Option String) : FieldResult :=
  let base : FieldResult :=
    { name := "Beverage Type", key := "beverageType", extracted := extracted
      expected := expected, status := .match_, explanation := "", normalization := none }
  if blankOpt extracted then
    { base with status := .not_found
                explanation := "Beverage type could not be determined from label" }
  else
    let ex := extracted.getD ""
    if normalize expected == normalize ex then
      { base with status := .match_, explanation := "Beverage type matches" }
    else
      { base with status := .mismatch
                  explanation := "Expected \"" ++ expected ++ "\", found \"" ++ ex ++ "\"" }

def compareClassType (expected : String) (extracted : Option String) : FieldResult :=
  let base : FieldResult :=
    { name := "Class/Type", key := "classType", extracted := extracted
      expected := expected, status := .match_, explanation := "", normalization := none }
  if blankOpt extracted then
    { base with status := .not_found, explanation := "Class/type not found on label" }
  else
    let ex := extracted.getD ""
    if normalize expected == normalize ex then
      { base with status := .match_, explanation := "Class/type matches" }
    else
      { base with status := .mismatch
                  explanation := "Expected \"" ++ expected ++ "\", found \"" ++ ex ++ "\"" }

def compareAlcoholContent (expected : String) (extracted : Option String) : FieldResult :=
  let base : FieldResult :=
    { name := "Alcohol Content", key := "alcoholContent", extracted := extracted
      expected := expected, status := .match_, explanation := "", normalization := none }
  if blankOpt extracted then
    { base with status := .not_found, explanation := "Alcohol content not found on label" }
  else
    let ex := extracted.getD ""
    let expectedParsed := parseAlcoholContent expected
    let extractedParsed := parseAlcoholContent ex
    match expectedParsed.abv, extractedParsed.abv with
    | some ea, some xa =>
      let diff := |ea - xa|
      let r1 :=
        if diff < 1/1000 then
          { base with status := FieldStatus.match_
                      explanation := "Alcohol content matches (" ++ toString xa ++ "% ABV)" }
        else
          { base with status := FieldStatus.mismatch
                      explanation := "Expected " ++ toString ea ++ "% ABV, found " ++ toString xa ++ "% ABV" }
      let ninfo : NormalizationInfo :=
        { expectedParsed := some expectedParsed
          extractedParsed := some extractedParsed
          numericDiff := some diff
          diffUnit := some "%" }
      let r2 := { r1 with normalization := some ninfo }
      if (expectedParsed.inferredFromBareNumber || extractedParsed.inferredFromBareNumber)
          && r2.status == .match_ then
        { r2 with status := .warning
                  explanation := r2.explanation ++ " — needs review (value inferred from bare number)" }
      else r2
    | _, _ =>
      if normalize expected == normalize ex then
        { base with status := .match_
                    explanation := "Alcohol content matches (text comparison)" }
      else
        { base with status := .mismatch
                    explanation := "Expected \"" ++ expected ++ "\", found \"" ++ ex ++ "\"" }

def compareNetContents (expected : String) (extracted : Option String) : FieldResult :=
  let base : FieldResult :=
    { name := "Net Contents", key := "netContents", extracted := extracted
      expected := expected, status := .match_, explanation := "", normalization := none }
  if blankOpt extracted then
    { base with status := .not_found, explanation := "Net contents not found on label" }
  else
    let ex := extracted.getD ""
    if normalizeNetContents expected == normalizeNetContents ex then
      { base with status := .match_, explanation := "Net contents match" }
    else
      { base with status := .mismatch
                  explanation := "Expected \"" ++ expected ++ "\", found \"" ++ ex ++ "\"" }

def compareProducerName (expected : String) (extracted : Option String) : FieldResult :=
  let base : FieldResult :=
    { name := "Producer Name", key := "producerName", extracted := extracted
      expected := expected, status := .match_, explanation := "", normalization := none }
  if blankOpt extracted then
    { base with status := .not_found, explanation := "Producer name not found on label" }
  else
    let ex := extracted.getD ""
    if normalize expected == normalize ex then
      { base with status := .match_, explanation := "Producer name matches" }
    else
      { base with status := .mismatch
                  explanation := "Expected \"" ++ expected ++ "\", found \"" ++ ex ++ "\"" }

def ADDRESS_ABBREVIATIONS : List (String × String) :=
  [("st", "street"), ("ave", "avenue"), ("blvd", "boulevard"), ("dr", "drive"),
   ("ln", "lane"), ("rd", "road"), ("ct", "court"), ("pl", "place"),
   ("sq", "square"), ("pkwy", "parkway"), ("hwy", "highway"), ("ste", "suite"),
   ("apt", "apartment"), ("fl", "floor"), ("n", "north"), ("s", "south"),
   ("e", "east"), ("w", "west"), ("ne", "northeast"), ("nw", "northwest"),
   ("se", "southeast"), ("sw", "southwest")]

def abbrevLookup (w : String) : Option String :=
  (ADDRESS_ABBREVIATIONS.find? (fun p => p.1 == w)).map (fun p => p.2)

/-- `word.replace(/\./g, "")`. -/
def stripDots (w : String) : String := ⟨w.data.filter (fun c => c != '.')⟩

def normalizeAddress (addr : String) : String :=
  let n1 := normalize addr
  let n2 : String := ⟨n1.data.map (fun c => if c == '.' || c == ',' || c == ';' then ' ' else c)⟩
  let n3 := jsTrim (collapseWs n2)
  String.intercalate " "
    ((splitSp n3).map (fun word =>
      let clean := stripDots word
      match abbrevLookup clean with
      | some full => full
      | none => word))

def compareProducerAddress (expected : String) (extracted : Option String) : FieldResult :=
  let base : FieldResult :=
    { name := "Producer Address", key := "producerAddress", extracted := extracted
      expected := expected, status := .match_, explanation := "", normalization := none }
  if blankOpt extracted then
    { base with status := .not_found, explanation := "Producer address not found on label" }
  else
    let ex := extracted.getD ""
    let normExpected := normalizeAddress expected
    let normExtracted := normalizeAddress ex
    if normExpected == normExtracted then
      { base with status := .match_, explanation := "Producer address matches" }
    else
      let expectedParts := (splitSp normExpected).filter (fun p => p.length > 1)
      let extractedWords := splitSp normExtracted
      let missingParts := expectedParts.filter (fun part => !(extractedWords.contains part))
      if missingParts.isEmpty then
        { base with status := .match_, explanation := "Address matches (different formatting)" }
      else if missingParts.length ≤ 2 then
        { base with status := .warning
                    explanation := "Address mostly matches, minor differences: missing \"" ++ String.intercalate "\", \"" missingParts ++ "\"" }
      else
        { base with status := .mismatch
                    explanation := "Expected \"" ++ expected ++ "\", found \"" ++ ex ++ "\"" }

/-- One alternative of `^(product of|made in|produced in|imported from)\s+`:
match the phrase case-insensitively, require at least one whitespace
character, and consume the whole whitespace run. -/
def tryPhrase (ph : List Char) (cs : List Char) : Option (List Char) :=
  match matchLit ph cs with
  | some (c :: rest) => if wsChar c then some (dropWsL (c :: rest)) else none
  | _ => none

/-- Strip one leading origin phrase (first alternative wins), as the
single (non-global) regex replace does. -/
def stripLeadingPhrase (cs : List Char) : List Char :=
  match tryPhrase "product of".data cs with
  | some r => r
  | none =>
  match tryPhrase "made in".data cs with
  | some r => r
  | none =>
  match tryPhrase "produced in".data cs with
  | some r => r
  | none =>
  match tryPhrase "imported from".data cs with
  | some r => r
  | none => cs

/-- `extractCountry` from the source: normalize, strip one leading
origin phrase, trim. -/
def extractCountry (s : String) : String :=
  jsTrim ⟨stripLeadingPhrase (normalize s).data⟩

def compareCountryOfOrigin (expected : String) (extracted : Option String) : FieldResult :=
  let base : FieldResult :=
    { name := "Country of Origin", key := "countryOfOrigin", extracted := extracted
      expected := expected, status := .match_, explanation := "", normalization := none }
  if blankOpt extracted then
    { base with status := .not_found, explanation := "Country of origin not found on label" }
  else
    let ex := extracted.getD ""
    if extractCountry expected == extractCountry ex then
      { base with status := .match_, explanation := "Country of origin matches" }
    else
      { base with status := .mismatch
                  explanation := "Expected \"" ++ expected ++ "\", found \"" ++ ex ++ "\"" }

def compareGovernmentWarning (expected : String) (extracted : Option String)
    (allCaps : Option Bool) (bold : Option Bool) : FieldResult :=
  let base : FieldResult :=
    { name := "Government Warning", key := "governmentWarning", extracted := extracted
      expected := expected, status := .match_, explanation := "", normalization := none }
  if blankOpt extracted then
    { base with status := .not_found, explanation := "Government warning not found on label" }
  else
    let ex := extracted.getD ""
    let normExpected := wsNormalize expected
    let normExtracted := wsNormalize ex
    if normExpected != normExtracted then
      if lowerStr normExpected == lowerStr normExtracted then
        { base with status := .mismatch
                    explanation := "Government warning text has case differences" }
      else
        { base with status := .mismatch
                    explanation := "Government warning text does not match. Expected: \"" ++ normExpected ++ "\", found: \"" ++ normExtracted ++ "\"" }
    else
      let formattingIssues : List String :=
        (if allCaps = some false then ["\"GOVERNMENT WARNING:\" prefix should be in ALL CAPS"] else []) ++
        (if bold = some false then ["Government warning text does not appear to be bold"] else [])
      if !formattingIssues.isEmpty then
        { base with status := .warning
                    explanation := "Text matches but formatting issues: " ++ String.intercalate "; " formattingIssues }
      else
        { base with explanation := "Government warning matches with proper formatting" }

/-! ## Aggregator -/

/-- The `fields` list built by `compareFields`: each comparator runs
exactly when its expected value is truthy (non-empty), in source order. -/
def fieldsOf (expected : ApplicationData) (extracted : ExtractedLabel) : List FieldResult :=
  (if expected.beverageType ≠ "" then [compareBeverageType expected.beverageType extracted.beverageType] else []) ++
  (if expected.brandName ≠ "" then [compareBrandName expected.brandName extracted.brandName] else []) ++
  (if expected.classType ≠ "" then [compareClassType expected.classType extracted.classType] else []) ++
  (if expected.alcoholContent ≠ "" then [compareAlcoholContent expected.alcoholContent extracted.alcoholContent] else []) ++
  (if expected.netContents ≠ "" then [compareNetContents expected.netContents extracted.netContents] else []) ++
  (if expected.producerName ≠ "" then [compareProducerName expected.producerName extracted.producerName] else []) ++
  (if expected.producerAddress ≠ "" then [compareProducerAddress expected.producerAddress extracted.producerAddress] else []) ++
  (if expected.countryOfOrigin ≠ "" then [compareCountryOfOrigin expected.countryOfOrigin extracted.countryOfOrigin] else []) ++
  (if expected.governmentWarning ≠ "" then
    [compareGovernmentWarning expected.governmentWarning extracted.governmentWarning
      extracted.governmentWarningAllCaps extracted.governmentWarningBold]
  else [])

def compareFields (expected : ApplicationData) (extracted : ExtractedLabel)
    (processingTimeMs : ℚ) : VerificationResult :=
  let fields := fieldsOf expected extracted
  let governmentWarningCheck :=
    if extracted.isAlcoholLabel then some (checkGovernmentWarningCompliance extracted) else none
  let overallStatus : OverallStatus :=
    if !extracted.isAlcoholLabel then .rejected
    else if fields.any (fun f => f.status == .mismatch) then .rejected
    else if fields.any (fun f => f.status == .warning || f.status == .not_found) then .needs_review
    else if (match governmentWarningCheck with
             | some c => c.issues.any (fun i => !(includes i "verify manually"))
             | none => false) then .needs_review
    else if fields.length = 0 then .needs_review
    else .approved
  { overallStatus := overallStatus
    isAlcoholLabel := extracted.isAlcoholLabel
    fields := fields
    governmentWarningCheck := governmentWarningCheck
    imageQuality := extracted.imageQuality
    confidence := extracted.confidence
    notes := extracted.notes
    processingTimeMs := processingTimeMs }

/-! ## Specification-side description of the overall-status decision -/

/-- A compliance issue that is not a manual-verification advisory. -/
def hasNonAdvisoryIssue (c : GovernmentWarningCheck) : Bool :=
  c.issues.any (fun i => !(includes i "verify manually"))

/-- The overall-status precedence chain exactly as the specification
words it: first matching rule wins, over the label flag, the statuses of
the compared fields, and the compliance check. -/
def overallStatusSpec (isAlcoholLabel : Bool) (statuses : List FieldStatus)
    (check : Option GovernmentWarningCheck) : OverallStatus :=
  if isAlcoholLabel = false then .rejected
  else if statuses.any (fun s => s == FieldStatus.mismatch) then .rejected
  else if statuses.any (fun s => s == FieldStatus.warning || s == FieldStatus.not_found) then .needs_review
  else if (match check with
           | some c => hasNonAdvisoryIssue c
           | none => false) then .needs_review
  else if statuses = [] then .needs_review
  else .approved

/-! ## Helper lemmas -/

theorem mem_ite_singleton {α : Type} {c : Prop} [Decidable c] {a f : α} :
    f ∈ (if c then [a] else ([] : List α)) ↔ c ∧ f = a := by
  split <;> simp_all

theorem compareBrandName_key (e : String) (x : Option String) :
    (compareBrandName e x).key = "brandName" := by
  unfold compareBrandName; dsimp only; split_ifs <;> rfl

theorem compareBeverageType_key (e : String) (x : Option String) :
    (compareBeverageType e x).key = "beverageType" := by
  unfold compareBeverageType; dsimp only; split_ifs <;> rfl

theorem compareClassType_key (e : String) (x : Option String) :
    (compareClassType e x).key = "classType" := by
  unfold compareClassType; dsimp only; split_ifs <;> rfl

theorem compareAlcoholContent_key (e : String) (x : Option String) :
    (compareAlcoholContent e x).key = "alcoholContent" := by
  unfold compareAlcoholContent
  dsimp only
  repeat' split
  all_goals rfl

theorem compareNetContents_key (e : String) (x : Option String) :
    (compareNetContents e x).key = "netContents" := by
  unfold compareNetContents; dsimp only; split_ifs <;> rfl

theorem compareProducerName_key (e : String) (x : Option String) :
    (compareProducerName e x).key = "producerName" := by
  unfold compareProducerName; dsimp only; split_ifs <;> rfl

theorem compareProducerAddress_key (e : String) (x : Option String) :
    (compareProducerAddress e x).key = "producerAddress" := by
  unfold compareProducerAddress; dsimp only; split_ifs <;> rfl

theorem compareCountryOfOrigin_key (e : String) (x : Option String) :
    (compareCountryOfOrigin e x).key = "countryOfOrigin" := by
  unfold compareCountryOfOrigin; dsimp only; split_ifs <;> rfl

theorem compareGovernmentWarning_key (e : String) (x : Option String)
    (ac b : Option Bool) :
    (compareGovernmentWarning e x ac b).key = "governmentWarning" := by
  unfold compareGovernmentWarning; dsimp only; split_ifs <;> rfl

theorem compareBrandName_blank (e : String) (x : Option String) (h : blankOpt x = true) :
    (compareBrandName e x).status = .not_found := by
  unfold compareBrandName; rw [if_pos h]

theorem compareBeverageType_blank (e : String) (x : Option String) (h : blankOpt x = true) :
    (compareBeverageType e x).status = .not_found := by
  unfold compareBeverageType; rw [if_pos h]

theorem compareClassType_blank (e : String) (x : Option String) (h : blankOpt x = true) :
    (compareClassType e x).status = .not_found := by
  unfold compareClassType; rw [if_pos h]

theorem compareAlcoholContent_blank (e : String) (x : Option String) (h : blankOpt x = true) :
    (compareAlcoholContent e x).status = .not_found := by
  unfold compareAlcoholContent; rw [if_pos h]

theorem compareNetContents_blank (e : String) (x : Option String) (h : blankOpt x = true) :
    (compareNetContents e x).status = .not_found := by
  unfold compareNetContents; rw [if_pos h]

theorem compareProducerName_blank (e : String) (x : Option String) (h : blankOpt x = true) :
    (compareProducerName e x).status = .not_found := by
  unfold compareProducerName; rw [if_pos h]

theorem compareProducerAddress_blank (e : String) (x : Option String) (h : blankOpt x = true) :
    (compareProducerAddress e x).status = .not_found := by
  unfold compareProducerAddress; rw [if_pos h]

theorem compareCountryOfOrigin_blank (e : String) (x : Option String) (h : blankOpt x = true) :
    (compareCountryOfOrigin e x).status = .not_found := by
  unfold compareCountryOfOrigin; rw [if_pos h]

theorem compareGovernmentWarning_blank (e : String) (x : Option String)
    (ac b : Option Bool) (h : blankOpt x = true) :
    (compareGovernmentWarning e x ac b).status = .not_found := by
  unfold compareGovernmentWarning; rw [if_pos h]

/-- Membership in the aggregated `fields` list, field by field. -/
theorem mem_fieldsOf {exp : ApplicationData} {ext : ExtractedLabel} {f : FieldResult} :
    f ∈ fieldsOf exp ext ↔
      (exp.beverageType ≠ "" ∧ f = compareBeverageType exp.beverageType ext.beverageType) ∨
      (exp.brandName ≠ "" ∧ f = compareBrandName exp.brandName ext.brandName) ∨
      (exp.classType ≠ "" ∧ f = compareClassType exp.classType ext.classType) ∨
      (exp.alcoholContent ≠ "" ∧ f = compareAlcoholContent exp.alcoholContent ext.alcoholContent) ∨
      (exp.netContents ≠ "" ∧ f = compareNetContents exp.netContents ext.netContents) ∨
      (exp.producerName ≠ "" ∧ f = compareProducerName exp.producerName ext.producerName) ∨
      (exp.producerAddress ≠ "" ∧ f = compareProducerAddress exp.producerAddress ext.producerAddress) ∨
      (exp.countryOfOrigin ≠ "" ∧ f = compareCountryOfOrigin exp.countryOfOrigin ext.countryOfOrigin) ∨
      (exp.governmentWarning ≠ "" ∧
        f = compareGovernmentWarning exp.governmentWarning ext.governmentWarning
              ext.governmentWarningAllCaps ext.governmentWarningBold) := by
  simp only [fieldsOf, List.mem_append, mem_ite_singleton, or_assoc]

theorem compareFields_fields (exp : ApplicationData) (ext : ExtractedLabel) (t : ℚ) :
    (compareFields exp ext t).fields = fieldsOf exp ext := rfl

theorem compareFields_isAlcoholLabel (exp : ApplicationData) (ext : ExtractedLabel) (t : ℚ) :
    (compareFields exp ext t).isAlcoholLabel = ext.isAlcoholLabel := rfl

theorem compareFields_check (exp : ApplicationData) (ext : ExtractedLabel) (t : ℚ) :
    (compareFields exp ext t).governmentWarningCheck
      = if ext.isAlcoholLabel then some (checkGovernmentWarningCompliance ext) else none := rfl

/-- The computed overall status agrees with the specification's
precedence chain applied to the produced result. -/
theorem compareFields_overallStatus (exp : ApplicationData) (ext : ExtractedLabel) (t : ℚ) :
    (compareFields exp ext t).overallStatus
      = overallStatusSpec (compareFields exp ext t).isAlcoholLabel
          ((compareFields exp ext t).fields.map (fun f => f.status))
          (compareFields exp ext t).governmentWarningCheck := by
  unfold compareFields overallStatusSpec hasNonAdvisoryIssue
  cases ext.isAlcoholLabel <;>
    simp [List.any_map, Function.comp, List.length_eq_zero]

/-! ## Claims -/

/-- C1: for every expected record and extracted record, `compareFields`
determines `overallStatus` by the first matching rule of the precedence
chain `overallStatusSpec`: `isAlcoholLabel = false` → rejected; any
included field status `mismatch` → rejected; any field status `warning`
or `not_found` → needs_review; any compliance-check issue that is not a
manual-verification advisory → needs_review; zero compared fields →
needs_review; otherwise approved. -/
theorem claim_C1_overall_status_precedence (exp : ApplicationData) (ext : ExtractedLabel) (t : ℚ) :
    (compareFields exp ext t).overallStatus
      = overallStatusSpec (compareFields exp ext t).isAlcoholLabel
          ((compareFields exp ext t).fields.map (fun f => f.status))
          (compareFields exp ext t).governmentWarningCheck :=
  compareFields_overallStatus exp ext t

/-- C5 (counterexample): the brand-name comparator reports `match` for
expected `"Stone  Brewing"` (two internal spaces) against extracted
`"Stone Brewing"`, although the two values are not equal as exact
trimmed strings — so "match iff equal as exact trimmed strings" is
false as stated. -/
theorem claim_C5_counterexample :
    (compareBrandName "Stone  Brewing" (some "Stone Brewing")).status = FieldStatus.match_
      ∧ jsTrim "Stone  Brewing" ≠ jsTrim "Stone Brewing" := by
  decide

/-- C5 (amended): for the brandName comparator with non-empty extracted
text, the status is match iff expected and extracted are equal after
trimming and collapsing internal whitespace runs (case-sensitive);
otherwise warning if equal under case-insensitive normalization;
otherwise warning if either normalized string contains the other as a
substring; otherwise mismatch. -/
theorem claim_C5_brandName_ladder (e x : String) (hx : x ≠ "") :
    ((compareBrandName e (some x)).status = FieldStatus.match_
        ↔ wsNormalize e = wsNormalize x)
    ∧ (wsNormalize e ≠ wsNormalize x → normalize e = normalize x →
        (compareBrandName e (some x)).status = FieldStatus.warning)
    ∧ (wsNormalize e ≠ wsNormalize x → normalize e ≠ normalize x →
        (includes (normalize x) (normalize e) || includes (normalize e) (normalize x)) = true →
        (compareBrandName e (some x)).status = FieldStatus.warning)
    ∧ (wsNormalize e ≠ wsNormalize x → normalize e ≠ normalize x →
        (includes (normalize x) (normalize e) || includes (normalize e) (normalize x)) = false →
        (compareBrandName e (some x)).status = FieldStatus.mismatch) := by
  have hb : ¬(blankOpt (some x) = true) := by simp [blankOpt, hx]
  unfold compareBrandName
  dsimp only
  rw [if_neg hb]
  dsimp only [Option.getD]
  split_ifs with h1 h2 h3 <;> simp_all [beq_iff_eq] <;>
    try (intro ha; simp_all)

theorem claim_C5_brandName_ladder_witness :
    (compareBrandName "Old Tom Gin" (some "Old Tom Gin")).status = FieldStatus.match_ :=
  (claim_C5_brandName_ladder "Old Tom Gin" "Old Tom Gin" (by decide)).1.mpr (by decide)

/-- C9: the countryOfOrigin comparator with non-empty extracted text
returns match iff the two values are equal after `normalize` and
stripping one leading origin phrase from each side independently
(`extractCountry`); in particular "France" vs "Product of France"
matches, and so does the symmetric case. -/
theorem claim_C9_countryOfOrigin (e x : String) (hx : x ≠ "") :
    ((compareCountryOfOrigin e (some x)).status = FieldStatus.match_
        ↔ extractCountry e = extractCountry x)
    ∧ (compareCountryOfOrigin "France" (some "Product of France")).status = FieldStatus.match_
    ∧ (compareCountryOfOrigin "Product of France" (some "France")).status = FieldStatus.match_ := by
  have hb : ¬(blankOpt (some x) = true) := by simp [blankOpt, hx]
  refine ⟨?_, by decide, by decide⟩
  unfold compareCountryOfOrigin
  dsimp only
  rw [if_neg hb]
  dsimp only [Option.getD]
  split_ifs with h1 <;> simp_all [beq_iff_eq]

theorem claim_C9_countryOfOrigin_witness :
    (compareCountryOfOrigin "Made In Spain" (some "spain")).status = FieldStatus.match_ :=
  (claim_C9_countryOfOrigin "Made In Spain" "spain" (by decide)).1.mpr (by decide)

/-- C10: the producer-address token test is one-directional: if every
whitespace token of `normalizeAddress expected` longer than one
character occurs as a whole word among the tokens of
`normalizeAddress extracted`, the comparator returns match — words
present only in the extracted address are never counted against the
result. -/
theorem claim_C10_address_one_directional (e x : String) (he : e ≠ "") (hx : x ≠ "")
    (hcov : ∀ p ∈ (splitSp (normalizeAddress e)).filter (fun p => p.length > 1),
        p ∈ splitSp (normalizeAddress x)) :
    (compareProducerAddress e (some x)).status = FieldStatus.match_ := by
  have hb : ¬(blankOpt (some x) = true) := by simp [blankOpt, hx]
  unfold compareProducerAddress
  dsimp only
  rw [if_neg hb]
  dsimp only [Option.getD]
  split_ifs with h1 h2 h3
  · rfl
  · rfl
  · exfalso
    apply h2
    rw [List.isEmpty_iff, List.filter_eq_nil]
    intro p hp
    simp only [Bool.not_eq_true', Bool.not_eq_false]
    exact List.elem_eq_true_of_mem (hcov p hp)
  · exfalso
    apply h2
    rw [List.isEmpty_iff, List.filter_eq_nil]
    intro p hp
    simp only [Bool.not_eq_true', Bool.not_eq_false]
    exact List.elem_eq_true_of_mem (hcov p hp)

theorem claim_C10_address_one_directional_witness :
    (compareProducerAddress "123 Main St"
        (some "Warehouse B 123 Main Street Building 7 Springfield Illinois USA")).status
      = FieldStatus.match_ :=
  claim_C10_address_one_directional "123 Main St"
    "Warehouse B 123 Main Street Building 7 Springfield Illinois USA"
    (by decide) (by decide) (by decide)

/-- C7: the governmentWarning field comparator with non-empty extracted
text compares after whitespace-only normalization preserving case: a
case-insensitive-only match is a mismatch (not warning); an exact match
is `match` unless `allCapsCorrect` or `boldCorrect` is explicitly
false, in which case it is downgraded to warning. -/
theorem claim_C7_governmentWarning_case (e x : String) (ac b : Option Bool) (hx : x ≠ "") :
    (wsNormalize e ≠ wsNormalize x →
        lowerStr (wsNormalize e) = lowerStr (wsNormalize x) →
        (compareGovernmentWarning e (some x) ac b).status = FieldStatus.mismatch)
    ∧ (wsNormalize e = wsNormalize x → (ac = some false ∨ b = some false) →
        (compareGovernmentWarning e (some x) ac b).status = FieldStatus.warning)
    ∧ (wsNormalize e = wsNormalize x → ¬(ac = some false ∨ b = some false) →
        (compareGovernmentWarning e (some x) ac b).status = FieldStatus.match_)
    ∧ (wsNormalize e = wsNormalize x → (ac = some false ∨ b = some false) →
        (compareGovernmentWarning e (some x) ac b).explanation
          = "Text matches but formatting issues: " ++ String.intercalate "; "
              ((if ac = some false then
                  ["\"GOVERNMENT WARNING:\" prefix should be in ALL CAPS"]
                else [])
                ++ (if b = some false then
                  ["Government warning text does not appear to be bold"]
                else []))) := by
  have hb : ¬(blankOpt (some x) = true) := by simp [blankOpt, hx]
  unfold compareGovernmentWarning
  dsimp only
  rw [if_neg hb]
  dsimp only [Option.getD]
  split_ifs <;> simp_all [bne_iff_ne, beq_iff_eq]

theorem claim_C7_governmentWarning_case_witness :
    (compareGovernmentWarning "GW text" (some "GW  text") (some true) (some false)).status
      = FieldStatus.warning :=
  (claim_C7_governmentWarning_case "GW text" "GW  text" (some true) (some false)
      (by decide)).2.1 (by decide) (Or.inr rfl)

/-- Expected-address tokens longer than one character, as the address
comparator decomposes them. -/
def addressTokens (s : String) : List String :=
  (splitSp (normalizeAddress s)).filter (fun p => p.length > 1)

/-- The expected tokens that do not occur as a whole word among the
extracted tokens. -/
def addressMissing (e x : String) : List String :=
  (addressTokens e).filter (fun p => !((splitSp (normalizeAddress x)).contains p))

/-- C6: the producerAddress comparator with non-empty extracted text:
`normalizeAddress` equality gives match; otherwise the expected tokens
longer than one character are tested for exact word-level membership in
the extracted token set, order-independently: 0 missing gives match,
1–2 missing gives warning listing the missing words, 3 or more gives
mismatch.  A word-reordered address with an identical token set gives
match, and "Mainstream" never satisfies the tokens "main" or "street". -/
theorem claim_C6_producerAddress (e x : String) (hx : x ≠ "") :
    ((normalizeAddress e = normalizeAddress x →
        (compareProducerAddress e (some x)).status = FieldStatus.match_)
    ∧ (normalizeAddress e ≠ normalizeAddress x → addressMissing e x = [] →
        (compareProducerAddress e (some x)).status = FieldStatus.match_)
    ∧ (normalizeAddress e ≠ normalizeAddress x → addressMissing e x ≠ [] →
        (addressMissing e x).length ≤ 2 →
        (compareProducerAddress e (some x)).status = FieldStatus.warning
          ∧ (compareProducerAddress e (some x)).explanation
              = "Address mostly matches, minor differences: missing \""
                  ++ String.intercalate "\", \"" (addressMissing e x) ++ "\"")
    ∧ (normalizeAddress e ≠ normalizeAddress x → 2 < (addressMissing e x).length →
        (compareProducerAddress e (some x)).status = FieldStatus.mismatch))
    ∧ (compareProducerAddress "Springfield IL 123 Main Street"
          (some "123 Main St, Springfield, IL")).status = FieldStatus.match_
    ∧ (compareProducerAddress "123 Main Street, Springfield, IL"
          (some "456 Mainstream Blvd, Springfield, IL")).status = FieldStatus.mismatch := by
  have hb : ¬(blankOpt (some x) = true) := by simp [blankOpt, hx]
  refine ⟨?_, by decide, by decide⟩
  unfold compareProducerAddress
  dsimp only
  rw [if_neg hb]
  dsimp only [Option.getD]
  simp only [addressMissing, addressTokens]
  refine ⟨fun h => ?_, fun hne hmiss => ?_, fun hne hmiss hlen => ?_, fun hne hlen => ?_⟩
  · rw [if_pos (show (normalizeAddress e == normalizeAddress x) = true by
      simp [beq_iff_eq, h])]
  · rw [if_neg (show ¬(normalizeAddress e == normalizeAddress x) = true by
      simp [beq_iff_eq]; exact hne)]
    rw [if_pos (by rw [hmiss]; rfl)]
  · rw [if_neg (show ¬(normalizeAddress e == normalizeAddress x) = true by
      simp [beq_iff_eq]; exact hne)]
    rw [if_neg (by simp only [List.isEmpty_iff]; exact hmiss)]
    rw [if_pos hlen]
    exact ⟨rfl, rfl⟩
  · rw [if_neg (show ¬(normalizeAddress e == normalizeAddress x) = true by
      simp [beq_iff_eq]; exact hne)]
    rw [if_neg (by
      simp only [List.isEmpty_iff]
      intro h0
      rw [h0] at hlen
      simp at hlen)]
    rw [if_neg (by omega)]

theorem claim_C6_producerAddress_witness :
    (compareProducerAddress "10 Oak Avenue Portland"
        (some "10 Elm Court Portland")).status = FieldStatus.warning :=
  (((claim_C6_producerAddress "10 Oak Avenue Portland" "10 Elm Court Portland"
      (by decide)).1.2.2.1 (by decide) (by decide) (by decide)).1)

/-- C2: for the alcoholContent comparator with non-empty sides: when
both sides parse to a numeric ABV the status is match iff the absolute
difference is below 0.001 (else mismatch), except that a would-be match
is downgraded to warning when either parse inferred the unit from a
bare number; when either side fails to parse, the status is match iff
the two strings agree under `normalize`.  In particular "80 Proof" vs
"40% ABV" is match and "40" vs "40% ABV" is warning. -/
theorem claim_C2_alcoholContent_comparison (e x : String) (he : e ≠ "") (hx : x ≠ "") :
    (∀ a b : ℚ, (parseAlcoholContent e).abv = some a → (parseAlcoholContent x).abv = some b →
        (compareAlcoholContent e (some x)).status =
          (if |a - b| < 1/1000 then
            (if (parseAlcoholContent e).inferredFromBareNumber
                || (parseAlcoholContent x).inferredFromBareNumber then
              FieldStatus.warning
            else FieldStatus.match_)
          else FieldStatus.mismatch))
    ∧ ((parseAlcoholContent e).abv = none ∨ (parseAlcoholContent x).abv = none →
        ((compareAlcoholContent e (some x)).status = FieldStatus.match_
          ↔ normalize e = normalize x))
    ∧ (compareAlcoholContent "80 Proof" (some "40% ABV")).status = FieldStatus.match_
    ∧ (compareAlcoholContent "40" (some "40% ABV")).status = FieldStatus.warning := by
  have hb : ¬(blankOpt (some x) = true) := by simp [blankOpt, hx]
  refine ⟨?_, ?_, by decide, by decide⟩
  · intro a b ha hbq
    unfold compareAlcoholContent
    dsimp only
    rw [if_neg hb]
    dsimp only [Option.getD]
    rw [ha, hbq]
    dsimp only
    rcases Bool.eq_false_or_eq_true ((parseAlcoholContent e).inferredFromBareNumber
        || (parseAlcoholContent x).inferredFromBareNumber) with hf | hf <;>
      by_cases hd : |a - b| < (1 : ℚ)/1000
    · simp only [if_pos hd]
      simp [hf]
    · simp only [if_neg hd]
      simp [hf]
    · simp only [if_pos hd]
      simp [hf]
    · simp only [if_neg hd]
      simp [hf]
  · intro hnone
    unfold compareAlcoholContent
    dsimp only
    rw [if_neg hb]
    dsimp only [Option.getD]
    rcases hpe : (parseAlcoholContent e).abv with _ | a
    · rcases hpx : (parseAlcoholContent x).abv with _ | b <;>
        (dsimp only; by_cases hq : normalize e = normalize x <;> simp [hq, beq_iff_eq])
    · rcases hpx : (parseAlcoholContent x).abv with _ | b
      · dsimp only
        by_cases hq : normalize e = normalize x <;> simp [hq, beq_iff_eq]
      · exfalso
        rcases hnone with h | h
        · rw [hpe] at h
          exact Option.noConfusion h
        · rw [hpx] at h
          exact Option.noConfusion h

theorem claim_C2_alcoholContent_comparison_witness :
    (compareAlcoholContent "5% ABV" (some "5.5% ABV")).status = FieldStatus.mismatch := by
  have h := (claim_C2_alcoholContent_comparison "5% ABV" "5.5% ABV"
      (by decide) (by decide)).1 5 (11/2) (by decide) (by decide)
  rw [h]
  decide

/-- C3: `parseAlcoholContent` tries the four patterns in strict order
with first match winning: the combined pattern sets both values and
adds a caution note exactly when proof differs from 2×ABV by more than
0.1 (without failing the parse); the proof-only pattern derives
`abv = proof / 2` with an info note; the percent pattern sets only abv;
a bare decimal number sets abv with `inferredFromBareNumber` and a
caution note; otherwise everything is null and notes are empty.  The
four concrete examples of the specification behave accordingly. -/
theorem claim_C3_parseAlcoholContent_patterns :
    ((parseAlcoholContent "40% Alc./Vol. (80 Proof)").abv = some 40
      ∧ (parseAlcoholContent "40% Alc./Vol. (80 Proof)").proof = some 80
      ∧ (parseAlcoholContent "40% Alc./Vol. (80 Proof)").inferredFromBareNumber = false
      ∧ (parseAlcoholContent "40% Alc./Vol. (80 Proof)").notes = [])
    ∧ ((parseAlcoholContent "80 Proof").abv = some 40
      ∧ (parseAlcoholContent "80 Proof").proof = some 80
      ∧ (parseAlcoholContent "80 Proof").notes.map (fun n => n.level) = [NoteLevel.info])
    ∧ ((parseAlcoholContent "40").abv = some 40
      ∧ (parseAlcoholContent "40").inferredFromBareNumber = true
      ∧ (parseAlcoholContent "40").notes.map (fun n => n.level) = [NoteLevel.caution])
    ∧ ((parseAlcoholContent "unknown format xyz").abv = none
      ∧ (parseAlcoholContent "unknown format xyz").proof = none
      ∧ (parseAlcoholContent "unknown format xyz").notes = [])
    ∧ (∀ s : String, ∀ a p : ℚ, searchAt combinedAt (jsTrim s).data = some (a, p) →
        (parseAlcoholContent s).abv = some a ∧ (parseAlcoholContent s).proof = some p
          ∧ (parseAlcoholContent s).inferredFromBareNumber = false
          ∧ (parseAlcoholContent s).notes.map (fun n => n.level)
              = (if |p - a * 2| > 1/10 then [NoteLevel.caution] else []))
    ∧ (∀ s : String, ∀ p : ℚ, searchAt combinedAt (jsTrim s).data = none →
        searchAt proofAt (jsTrim s).data = some p →
        (parseAlcoholContent s).abv = some (p / 2) ∧ (parseAlcoholContent s).proof = some p
          ∧ (parseAlcoholContent s).inferredFromBareNumber = false
          ∧ (parseAlcoholContent s).notes.map (fun n => n.level) = [NoteLevel.info])
    ∧ (∀ s : String, ∀ a : ℚ, searchAt combinedAt (jsTrim s).data = none →
        searchAt proofAt (jsTrim s).data = none →
        searchAt percentAt (jsTrim s).data = some a →
        (parseAlcoholContent s).abv = some a ∧ (parseAlcoholContent s).proof = none
          ∧ (parseAlcoholContent s).inferredFromBareNumber = false
          ∧ (parseAlcoholContent s).notes = [])
    ∧ (∀ s : String, ∀ a : ℚ, searchAt combinedAt (jsTrim s).data = none →
        searchAt proofAt (jsTrim s).data = none →
        searchAt percentAt (jsTrim s).data = none →
        bareParse (jsTrim s).data = some a →
        (parseAlcoholContent s).abv = some a ∧ (parseAlcoholContent s).proof = none
          ∧ (parseAlcoholContent s).inferredFromBareNumber = true
          ∧ (parseAlcoholContent s).notes.map (fun n => n.level) = [NoteLevel.caution])
    ∧ (∀ s : String, searchAt combinedAt (jsTrim s).data = none →
        searchAt proofAt (jsTrim s).data = none →
        searchAt percentAt (jsTrim s).data = none →
        bareParse (jsTrim s).data = none →
        (parseAlcoholContent s).abv = none ∧ (parseAlcoholContent s).proof = none
          ∧ (parseAlcoholContent s).inferredFromBareNumber = false
          ∧ (parseAlcoholContent s).notes = []) := by
  refine ⟨by decide, by decide, by decide, by decide, ?_, ?_, ?_, ?_, ?_⟩
  · intro s a p h
    unfold parseAlcoholContent
    dsimp only
    rw [h]
    dsimp only
    refine ⟨rfl, rfl, rfl, ?_⟩
    split_ifs <;> rfl
  · intro s p h1 h2
    unfold parseAlcoholContent
    dsimp only
    rw [h1]
    dsimp only
    rw [h2]
    dsimp only
    exact ⟨rfl, rfl, rfl, rfl⟩
  · intro s a h1 h2 h3
    unfold parseAlcoholContent
    dsimp only
    rw [h1]
    dsimp only
    rw [h2]
    dsimp only
    rw [h3]
    dsimp only
    exact ⟨rfl, rfl, rfl, rfl⟩
  · intro s a h1 h2 h3 h4
    unfold parseAlcoholContent
    dsimp only
    rw [h1]
    dsimp only
    rw [h2]
    dsimp only
    rw [h3]
    dsimp only
    rw [h4]
    dsimp only
    exact ⟨rfl, rfl, rfl, rfl⟩
  · intro s h1 h2 h3 h4
    unfold parseAlcoholContent
    dsimp only
    rw [h1]
    dsimp only
    rw [h2]
    dsimp only
    rw [h3]
    dsimp only
    rw [h4]
    dsimp only
    exact ⟨rfl, rfl, rfl, rfl⟩

theorem claim_C3_parseAlcoholContent_patterns_witness :
    (parseAlcoholContent "50% (120 proof)").abv = some 50
      ∧ (parseAlcoholContent "50% (120 proof)").proof = some 120
      ∧ (parseAlcoholContent "50% (120 proof)").notes.map (fun n => n.level)
          = [NoteLevel.caution] := by
  have h := claim_C3_parseAlcoholContent_patterns.2.2.2.2.1 "50% (120 proof)" 50 120
    (by decide)
  refine ⟨h.1, h.2.1, ?_⟩
  rw [h.2.2.2]
  decide

/-- C4: for every field of the expected record: an empty expected value
excludes the field from the output `fields` sequence entirely; every
field comparator returns `not_found` whenever the extracted value is
null or empty, regardless of the expected value (the blank check
precedes all field-specific logic); and a non-empty expected value with
a blank extracted value yields a `not_found` entry for that field. -/
theorem claim_C4_empty_excluded_blank_not_found
    (exp : ApplicationData) (ext : ExtractedLabel) (t : ℚ) :
    ((exp.beverageType = "" → ∀ f ∈ (compareFields exp ext t).fields, f.key ≠ "beverageType")
      ∧ (exp.brandName = "" → ∀ f ∈ (compareFields exp ext t).fields, f.key ≠ "brandName")
      ∧ (exp.classType = "" → ∀ f ∈ (compareFields exp ext t).fields, f.key ≠ "classType")
      ∧ (exp.alcoholContent = "" → ∀ f ∈ (compareFields exp ext t).fields, f.key ≠ "alcoholContent")
      ∧ (exp.netContents = "" → ∀ f ∈ (compareFields exp ext t).fields, f.key ≠ "netContents")
      ∧ (exp.producerName = "" → ∀ f ∈ (compareFields exp ext t).fields, f.key ≠ "producerName")
      ∧ (exp.producerAddress = "" → ∀ f ∈ (compareFields exp ext t).fields, f.key ≠ "producerAddress")
      ∧ (exp.countryOfOrigin = "" → ∀ f ∈ (compareFields exp ext t).fields, f.key ≠ "countryOfOrigin")
      ∧ (exp.governmentWarning = "" → ∀ f ∈ (compareFields exp ext t).fields, f.key ≠ "governmentWarning"))
    ∧ ((∀ e y, blankOpt y = true → (compareBeverageType e y).status = FieldStatus.not_found)
      ∧ (∀ e y, blankOpt y = true → (compareBrandName e y).status = FieldStatus.not_found)
      ∧ (∀ e y, blankOpt y = true → (compareClassType e y).status = FieldStatus.not_found)
      ∧ (∀ e y, blankOpt y = true → (compareAlcoholContent e y).status = FieldStatus.not_found)
      ∧ (∀ e y, blankOpt y = true → (compareNetContents e y).status = FieldStatus.not_found)
      ∧ (∀ e y, blankOpt y = true → (compareProducerName e y).status = FieldStatus.not_found)
      ∧ (∀ e y, blankOpt y = true → (compareProducerAddress e y).status = FieldStatus.not_found)
      ∧ (∀ e y, blankOpt y = true → (compareCountryOfOrigin e y).status = FieldStatus.not_found)
      ∧ (∀ e y ac b, blankOpt y = true →
          (compareGovernmentWarning e y ac b).status = FieldStatus.not_found))
    ∧ ((exp.beverageType ≠ "" → blankOpt ext.beverageType = true →
          ∃ f ∈ (compareFields exp ext t).fields,
            f.key = "beverageType" ∧ f.status = FieldStatus.not_found)
      ∧ (exp.brandName ≠ "" → blankOpt ext.brandName = true →
          ∃ f ∈ (compareFields exp ext t).fields,
            f.key = "brandName" ∧ f.status = FieldStatus.not_found)
      ∧ (exp.classType ≠ "" → blankOpt ext.classType = true →
          ∃ f ∈ (compareFields exp ext t).fields,
            f.key = "classType" ∧ f.status = FieldStatus.not_found)
      ∧ (exp.alcoholContent ≠ "" → blankOpt ext.alcoholContent = true →
          ∃ f ∈ (compareFields exp ext t).fields,
            f.key = "alcoholContent" ∧ f.status = FieldStatus.not_found)
      ∧ (exp.netContents ≠ "" → blankOpt ext.netContents = true →
          ∃ f ∈ (compareFields exp ext t).fields,
            f.key = "netContents" ∧ f.status = FieldStatus.not_found)
      ∧ (exp.producerName ≠ "" → blankOpt ext.producerName = true →
          ∃ f ∈ (compareFields exp ext t).fields,
            f.key = "producerName" ∧ f.status = FieldStatus.not_found)
      ∧ (exp.producerAddress ≠ "" → blankOpt ext.producerAddress = true →
          ∃ f ∈ (compareFields exp ext t).fields,
            f.key = "producerAddress" ∧ f.status = FieldStatus.not_found)
      ∧ (exp.countryOfOrigin ≠ "" → blankOpt ext.countryOfOrigin = true →
          ∃ f ∈ (compareFields exp ext t).fields,
            f.key = "countryOfOrigin" ∧ f.status = FieldStatus.not_found)
      ∧ (exp.governmentWarning ≠ "" → blankOpt ext.governmentWarning = true →
          ∃ f ∈ (compareFields exp ext t).fields,
            f.key = "governmentWarning" ∧ f.status = FieldStatus.not_found)) := by
  refine ⟨?_,
    ⟨compareBeverageType_blank, compareBrandName_blank, compareClassType_blank,
     compareAlcoholContent_blank, compareNetContents_blank, compareProducerName_blank,
     compareProducerAddress_blank, compareCountryOfOrigin_blank,
     compareGovernmentWarning_blank⟩, ?_⟩
  · refine ⟨?_, ?_, ?_, ?_, ?_, ?_, ?_, ?_, ?_⟩ <;>
      (intro h f hf
       rw [compareFields_fields, mem_fieldsOf] at hf
       rcases hf with ⟨hne, rfl⟩ | ⟨hne, rfl⟩ | ⟨hne, rfl⟩ | ⟨hne, rfl⟩ | ⟨hne, rfl⟩ |
         ⟨hne, rfl⟩ | ⟨hne, rfl⟩ | ⟨hne, rfl⟩ | ⟨hne, rfl⟩ <;>
         first
           | exact absurd h hne
           | (simp only [compareBeverageType_key, compareBrandName_key, compareClassType_key,
                compareAlcoholContent_key, compareNetContents_key, compareProducerName_key,
                compareProducerAddress_key, compareCountryOfOrigin_key,
                compareGovernmentWarning_key]
              decide))
  · refine ⟨?_, ?_, ?_, ?_, ?_, ?_, ?_, ?_, ?_⟩
    · intro hne hblank
      refine ⟨compareBeverageType exp.beverageType ext.beverageType, ?_,
        compareBeverageType_key _ _, compareBeverageType_blank _ _ hblank⟩
      rw [compareFields_fields, mem_fieldsOf]
      exact Or.inl ⟨hne, rfl⟩
    · intro hne hblank
      refine ⟨compareBrandName exp.brandName ext.brandName, ?_,
        compareBrandName_key _ _, compareBrandName_blank _ _ hblank⟩
      rw [compareFields_fields, mem_fieldsOf]
      exact Or.inr (Or.inl ⟨hne, rfl⟩)
    · intro hne hblank
      refine ⟨compareClassType exp.classType ext.classType, ?_,
        compareClassType_key _ _, compareClassType_blank _ _ hblank⟩
      rw [compareFields_fields, mem_fieldsOf]
      exact Or.inr (Or.inr (Or.inl ⟨hne, rfl⟩))
    · intro hne hblank
      refine ⟨compareAlcoholContent exp.alcoholContent ext.alcoholContent, ?_,
        compareAlcoholContent_key _ _, compareAlcoholContent_blank _ _ hblank⟩
      rw [compareFields_fields, mem_fieldsOf]
      exact Or.inr (Or.inr (Or.inr (Or.inl ⟨hne, rfl⟩)))
    · intro hne hblank
      refine ⟨compareNetContents exp.netContents ext.netContents, ?_,
        compareNetContents_key _ _, compareNetContents_blank _ _ hblank⟩
      rw [compareFields_fields, mem_fieldsOf]
      exact Or.inr (Or.inr (Or.inr (Or.inr (Or.inl ⟨hne, rfl⟩))))
    · intro hne hblank
      refine ⟨compareProducerName exp.producerName ext.producerName, ?_,
        compareProducerName_key _ _, compareProducerName_blank _ _ hblank⟩
      rw [compareFields_fields, mem_fieldsOf]
      exact Or.inr (Or.inr (Or.inr (Or.inr (Or.inr (Or.inl ⟨hne, rfl⟩)))))
    · intro hne hblank
      refine ⟨compareProducerAddress exp.producerAddress ext.producerAddress, ?_,
        compareProducerAddress_key _ _, compareProducerAddress_blank _ _ hblank⟩
      rw [compareFields_fields, mem_fieldsOf]
      exact Or.inr (Or.inr (Or.inr (Or.inr (Or.inr (Or.inr (Or.inl ⟨hne, rfl⟩))))))
    · intro hne hblank
      refine ⟨compareCountryOfOrigin exp.countryOfOrigin ext.countryOfOrigin, ?_,
        compareCountryOfOrigin_key _ _, compareCountryOfOrigin_blank _ _ hblank⟩
      rw [compareFields_fields, mem_fieldsOf]
      exact Or.inr (Or.inr (Or.inr (Or.inr (Or.inr (Or.inr (Or.inr (Or.inl ⟨hne, rfl⟩)))))))
    · intro hne hblank
      refine ⟨compareGovernmentWarning exp.governmentWarning ext.governmentWarning
          ext.governmentWarningAllCaps ext.governmentWarningBold, ?_,
        compareGovernmentWarning_key _ _ _ _,
        compareGovernmentWarning_blank _ _ _ _ hblank⟩
      rw [compareFields_fields, mem_fieldsOf]
      exact Or.inr (Or.inr (Or.inr (Or.inr (Or.inr (Or.inr (Or.inr (Or.inr ⟨hne, rfl⟩)))))))

theorem claim_C4_empty_excluded_blank_not_found_witness :
    ∃ f ∈ (compareFields
        { brandName := "Test Brand", classType := "", alcoholContent := "",
          netContents := "", producerName := "", producerAddress := "",
          countryOfOrigin := "", governmentWarning := "", beverageType := "" }
        { brandName := none, classType := none, alcoholContent := none,
          netContents := none, producerName := none, producerAddress := none,
          countryOfOrigin := none, governmentWarning := none,
          governmentWarningAllCaps := none, governmentWarningBold := none,
          beverageType := none, isAlcoholLabel := true, imageQuality := ImageQuality.good,
          confidence := 1, notes := [] } 0).fields,
      f.key = "brandName" ∧ f.status = FieldStatus.not_found :=
  (claim_C4_empty_excluded_blank_not_found
      { brandName := "Test Brand", classType := "", alcoholContent := "",
        netContents := "", producerName := "", producerAddress := "",
        countryOfOrigin := "", governmentWarning := "", beverageType := "" }
      { brandName := none, classType := none, alcoholContent := none,
        netContents := none, producerName := none, producerAddress := none,
        countryOfOrigin := none, governmentWarning := none,
        governmentWarningAllCaps := none, governmentWarningBold := none,
        beverageType := none, isAlcoholLabel := true, imageQuality := ImageQuality.good,
        confidence := 1, notes := [] } 0).2.2.2.1 (by decide) (by decide)

/-- Under an all-match non-empty comparison on an alcohol label, the
spec precedence chain reduces to the compliance-check question. -/
theorem overallStatusSpec_all_match (statuses : List FieldStatus)
    (chk : GovernmentWarningCheck)
    (hall : ∀ s ∈ statuses, s = FieldStatus.match_) (hne : statuses ≠ []) :
    overallStatusSpec true statuses (some chk)
      = if hasNonAdvisoryIssue chk then OverallStatus.needs_review
        else OverallStatus.approved := by
  have hm1 : statuses.any (fun s => s == FieldStatus.mismatch) = false := by
    rw [List.any_eq_false]
    intro s hs
    rw [hall s hs]
    decide
  have hm2 : statuses.any
      (fun s => s == FieldStatus.warning || s == FieldStatus.not_found) = false := by
    rw [List.any_eq_false]
    intro s hs
    rw [hall s hs]
    decide
  unfold overallStatusSpec
  rw [if_neg (by decide : ¬(true = false)), hm1, hm2]
  simp [hne]

/-- C8: for inputs with `isAlcoholLabel`, at least one compared field
and every compared field matching: if the compliance check's only issue
is the bold-detection manual-verification advisory, the overall status
is approved; whereas any compliance issue that is not a
manual-verification advisory makes it needs_review. -/
theorem claim_C8_bold_advisory_only_approves
    (exp : ApplicationData) (ext : ExtractedLabel) (t : ℚ)
    (halc : ext.isAlcoholLabel = true)
    (hne : (compareFields exp ext t).fields ≠ [])
    (hall : ∀ f ∈ (compareFields exp ext t).fields, f.status = FieldStatus.match_) :
    ((checkGovernmentWarningCompliance ext).issues = [boldAdvisoryIssue] →
        (compareFields exp ext t).overallStatus = OverallStatus.approved)
    ∧ ((∃ i ∈ (checkGovernmentWarningCompliance ext).issues,
          includes i "verify manually" = false) →
        (compareFields exp ext t).overallStatus = OverallStatus.needs_review) := by
  have hstat : ∀ s ∈ (compareFields exp ext t).fields.map (fun f => f.status),
      s = FieldStatus.match_ := by
    intro s hs
    rcases List.mem_map.mp hs with ⟨f, hf, rfl⟩
    exact hall f hf
  have hnil : (compareFields exp ext t).fields.map (fun f => f.status) ≠ [] := by
    simp only [ne_eq, List.map_eq_nil_iff]
    exact hne
  have hmain := compareFields_overallStatus exp ext t
  rw [compareFields_isAlcoholLabel, halc, compareFields_check, if_pos halc] at hmain
  rw [hmain, overallStatusSpec_all_match _ _ hstat hnil]
  constructor
  · intro hiss
    rw [if_neg]
    unfold hasNonAdvisoryIssue
    rw [hiss]
    decide
  · intro hex
    rw [if_pos]
    unfold hasNonAdvisoryIssue
    rw [List.any_eq_true]
    rcases hex with ⟨i, hi, hfalse⟩
    exact ⟨i, hi, by rw [hfalse]; rfl⟩

theorem claim_C8_bold_advisory_only_approves_witness :
    (compareFields
        { brandName := "Test Brand", classType := "", alcoholContent := "",
          netContents := "", producerName := "", producerAddress := "",
          countryOfOrigin := "", governmentWarning := "", beverageType := "" }
        { brandName := some "Test Brand", classType := none, alcoholContent := none,
          netContents := none, producerName := none, producerAddress := none,
          countryOfOrigin := none, governmentWarning := some STANDARD_GOV_WARNING,
          governmentWarningAllCaps := some true, governmentWarningBold := some false,
          beverageType := none, isAlcoholLabel := true, imageQuality := ImageQuality.good,
          confidence := 1, notes := [] } 0).overallStatus = OverallStatus.approved :=
  (claim_C8_bold_advisory_only_approves
      { brandName := "Test Brand", classType := "", alcoholContent := "",
        netContents := "", producerName := "", producerAddress := "",
        countryOfOrigin := "", governmentWarning := "", beverageType := "" }
      { brandName := some "Test Brand", classType := none, alcoholContent := none,
        netContents := none, producerName := none, producerAddress := none,
        countryOfOrigin := none, governmentWarning := some STANDARD_GOV_WARNING,
        governmentWarningAllCaps := some true, governmentWarningBold := some false,
        beverageType := none, isAlcoholLabel := true, imageQuality := ImageQuality.good,
        confidence := 1, notes := [] } 0
      rfl (by decide) (by decide)).1 (by decide)

end LabelVerify
